import Mathlib

/-!
Verification of `src/workflows/deploy-post-steps-generic.py` (GenericPostDeployer).

The definitions below are a shallow embedding of the Python source.  External
collaborators (the remote executor, the OS profile resolver, the dependency
manager's restart step, the concrete configurators) are modelled as opaque
inputs: a boolean outcome per remote action, a pure lookup for the OS profile,
and a list of configurator outcomes.  All decision logic embedded here is
translated line by line from the source file.
-/

set_option linter.unusedVariables false

/-- Python substring test on char lists: the pattern is a prefix of the text. -/
def substrAt : List Char → List Char → Bool
  | [], _ => true
  | _ :: _, [] => false
  | p :: ps, c :: cs => p == c && substrAt ps cs

/-- Python substring test on char lists: the pattern occurs somewhere in the text. -/
def substrAnywhere (pat : List Char) : List Char → Bool
  | [] => substrAt pat []
  | c :: cs => substrAt pat (c :: cs) || substrAnywhere pat cs

/-- Python `pat in s` for strings (substring containment). -/
def strContains (s pat : String) : Bool :=
  substrAnywhere pat.toList s.toList

/-- Python `str.split(sep)` for a one-character separator, over char lists.
Always returns a non-empty list; splitting the empty string gives one empty
field, exactly as in Python. -/
def split_char (sep : Char) : List Char → List (List Char)
  | [] => [[]]
  | c :: cs =>
    let r := split_char sep cs
    if c == sep then [] :: r
    else (c :: r.headD []) :: r.tailD []

/-- Python `s.split(sep)` for a one-character separator. -/
def pySplit (s : String) (sep : Char) : List String :=
  (split_char sep s.toList).map String.mk

/-- Python truthiness of a possibly-missing string config value:
`config.get(...)` returns `None` (here `none`) when the key is absent, and
`if not app_type:` also treats the empty string as false. -/
def pyTruthy : Option String → Bool
  | none => false
  | some s => !(s == "")

/-- The slice of the declarative configuration read by the functions under
verification.  `none` models a missing key; defaults are applied at the use
site exactly as the Python `config.get(key, default)` calls do. -/
structure Config where
  applicationType : Option String
  apacheDocRoot : Option String
  nginxDocRoot : Option String
  dockerEnabled : Bool
  useDocker : Bool
deriving DecidableEq

/-- OS profile returned by `OSDetector.get_user_info` (an external pure lookup
per the surrounding code; only these three fields are read here). -/
structure UserInfo where
  default_user : String
  web_user : String
  web_group : String
deriving DecidableEq

/-- Loop body of `_detect_installed_dependencies` (lines 84-88 of the source):
for a line containing `:installed`, take the text before the first colon and
append it to the accumulator only if it is an enabled dependency. -/
def detect_step (enabled : List String) (acc : List String) (line : String) :
    List String :=
  if strContains line ":installed" then
    let dep_name := (pySplit line ':').headD ""
    if dep_name ∈ enabled then acc ++ [dep_name] else acc
  else acc

/-- `_detect_installed_dependencies` (lines 50-88): on probe success, fold the
line parser over `output.split('\n')`, starting from the current installed
list; on probe failure the installed list is left unchanged. -/
def detect_installed_dependencies (enabled : List String) (probeSuccess : Bool)
    (output : String) (installed : List String) : List String :=
  if probeSuccess then (pySplit output '\n').foldl (detect_step enabled) installed
  else installed

/-- App-type inference from installed dependencies (lines 222-230):
nodejs, then python, then docker, then the generic 'web'. -/
def infer_app_type (installed : List String) : String :=
  if "nodejs" ∈ installed then "nodejs"
  else if "python" ∈ installed then "python"
  else if "docker" ∈ installed then "docker"
  else "web"

/-- `APP_TYPE_DIRS` dictionary (lines 235-239). -/
def APP_TYPE_DIRS : List (String × String) :=
  [("nodejs", "/opt/nodejs-app"), ("python", "/opt/python-app"),
   ("docker", "/opt/docker-app")]

/-- `_get_target_directory` (lines 217-263). -/
def get_target_directory (cfg : Config) (installed : List String) : String :=
  let app_type :=
    if pyTruthy cfg.applicationType then cfg.applicationType.getD ""
    else infer_app_type installed
  match APP_TYPE_DIRS.lookup app_type with
  | some d => d
  | none =>
    if app_type = "web" ∨ app_type = "api" ∨ app_type = "static" then
      if "nodejs" ∈ installed then "/opt/nodejs-app"
      else if "python" ∈ installed then "/opt/python-app"
      else if "apache" ∈ installed then cfg.apacheDocRoot.getD "/var/www/html"
      else if "nginx" ∈ installed then cfg.nginxDocRoot.getD "/var/www/html"
      else "/var/www/html"
    else "/opt/app"

/-- `_get_file_owner` (lines 265-284), with the OS profile lookup's result
passed in as `user_info`. -/
def get_file_owner (user_info : UserInfo) (installed : List String)
    (target_dir : String) : String :=
  if target_dir ∈ ["/opt/nodejs-app", "/opt/python-app", "/opt/docker-app", "/opt/app"] then
    user_info.default_user ++ ":" ++ user_info.default_user
  else if "apache" ∈ installed ∨ "nginx" ∈ installed then
    user_info.web_user ++ ":" ++ user_info.web_group
  else
    user_info.default_user ++ ":" ++ user_info.default_user

/-- The steps of `deploy_application` that issue remote actions, in source
order (lines 106-206). -/
inductive Step where
  | dockerDeploy
  | deployFiles
  | configureApp
  | appSpecificConfig
  | restartServices
  | verifyServicesCheck
  | setEnvVars
  | verifyDeploy
  | cleanupStep
  | optimizeStep
deriving DecidableEq

/-- Outcomes of the external collaborators a run of `deploy_application`
consults: the file-upload transport, each remote script, the docker
configurator, the configurator modules in aggregate, and the service-restart
delegate.  Each is an opaque boolean exactly as the source receives it. -/
structure RunEnv where
  copyOk : Bool
  deployScriptOk : Bool
  dockerDeployOk : Bool
  configureOk : Bool
  appSpecificOk : Bool
  restartOk : Bool
  verifyOk : Bool
deriving DecidableEq

/-- The caller-supplied flags of `deploy_application(package_file, verify,
cleanup, env_vars)`: `hasEnvVars` models a non-empty `env_vars` dict. -/
structure RunFlags where
  verify : Bool
  cleanup : Bool
  hasEnvVars : Bool
deriving DecidableEq

/-- Result of one orchestration run: the boolean `deploy_application` returns,
the remote-action steps it performed in order, and the warning messages it
printed. -/
structure RunOutcome where
  result : Bool
  steps : List Step
  warnings : List String
deriving DecidableEq

/-- `_deploy_application_files` (lines 286-424) reduced to its success value:
it returns `False` as soon as `copy_file_to_instance` fails (line 307-309),
otherwise the result of the single remote deployment script (line 423-424). -/
def deploy_application_files (copyOk scriptOk : Bool) : Bool :=
  if copyOk = false then false else scriptOk

/-- The tail of `deploy_application` shared by both deployment modes
(lines 181-215): env-var injection, optional verification, optional cleanup,
performance tuning, then `return True`.  The verification outcome only ever
produces a warning (lines 191-193). -/
def deploy_tail (steps : List Step) (warnings : List String) (env : RunEnv)
    (fl : RunFlags) : RunOutcome :=
  let steps := steps ++ (if fl.hasEnvVars then [Step.setEnvVars] else [])
  let steps := steps ++ (if fl.verify then [Step.verifyDeploy] else [])
  let warnings := warnings ++
    (if fl.verify && !env.verifyOk then ["Deployment verification had issues"] else [])
  let steps := steps ++ (if fl.cleanup then [Step.cleanupStep] else [])
  let steps := steps ++ [Step.optimizeStep]
  { result := true, steps := steps, warnings := warnings }

/-- `deploy_application` (lines 90-215).  In docker mode a failed container
deployment returns `False` at once (lines 120-122); in traditional mode a
failed file deployment returns `False` at once (lines 134-136).  The
configurator, app-specific-config and restart outcomes are only checked to
print warnings (lines 142-162) and never reach the return value, which is the
unconditional `return True` of line 215. -/
def deploy_application (cfg : Config) (env : RunEnv) (fl : RunFlags) : RunOutcome :=
  let use_docker_deployment := cfg.dockerEnabled && cfg.useDocker
  if use_docker_deployment then
    if env.dockerDeployOk = false then
      { result := false, steps := [Step.dockerDeploy], warnings := [] }
    else
      deploy_tail [Step.dockerDeploy] [] env fl
  else
    if deploy_application_files env.copyOk env.deployScriptOk = false then
      { result := false, steps := [Step.deployFiles], warnings := [] }
    else
      let w1 := if env.configureOk then [] else
        ["Application configuration had some issues"]
      let w2 := if env.appSpecificOk then [] else
        ["Some application-specific configurations failed"]
      let w3 := if env.restartOk then [] else
        ["Some services failed to restart"]
      deploy_tail
        [Step.deployFiles, Step.configureApp, Step.appSpecificConfig,
         Step.restartServices, Step.verifyServicesCheck]
        (w1 ++ w2 ++ w3) env fl

/-- `main` (lines 822-834): exit status 0 when `deploy_application` returns
`True`, 1 otherwise. -/
def main_exit_code (deploy_result : Bool) : Nat :=
  if deploy_result then 0 else 1

/-- One configurator's `configure()` behaviour as observed by the dispatch
loop: either a returned boolean or a raised exception with its message. -/
inductive ConfigureOutcome where
  | returns : Bool → ConfigureOutcome
  | raises : String → ConfigureOutcome
deriving DecidableEq

/-- One iteration of the `_configure_application` loop (lines 445-457): a
returned `True` leaves the aggregate alone, a returned `False` or a raised
exception (caught by the `except` clause) sets it to `False`. -/
def configure_step (success : Bool) (outcome : ConfigureOutcome) : Bool :=
  match outcome with
  | ConfigureOutcome.returns true => success
  | ConfigureOutcome.returns false => false
  | ConfigureOutcome.raises _ => false

/-- The `_configure_application` loop over the configurator list, returning
the names invoked (in order) and the aggregate success flag. -/
def configure_loop (success : Bool) :
    List (String × ConfigureOutcome) → List String × Bool
  | [] => ([], success)
  | c :: rest =>
    let r := configure_loop (configure_step success c.2) rest
    (c.1 :: r.1, r.2)

/-- `_configure_application` (lines 426-459): an empty configurator list
returns `True` immediately (lines 437-439); otherwise the loop runs with the
aggregate initialised to `True` (line 444). -/
def configure_application (configurators : List (String × ConfigureOutcome)) :
    List String × Bool :=
  if configurators.isEmpty then ([], true)
  else configure_loop true configurators

/-- The `for i in {1..5}` polling loop of the `_verify_deployment` script
(lines 597-604): returns the first attempt number whose response body contains
the expected substring, `none` if every listed attempt misses. -/
def poll_loop (responses : Nat → String) (expected : String) :
    List Nat → Option Nat
  | [] => none
  | i :: rest =>
    if strContains (responses i) expected then some i
    else poll_loop responses expected rest

/-- Observable outcome of the `_verify_deployment` health-check polling:
attempts performed, whether a body matched, whether the exhaustion warning was
printed, seconds slept (one `sleep 2` after each failed attempt), and whether
the remote script exited successfully. -/
structure VerifyOutcome where
  attemptsMade : Nat
  matched : Bool
  warned : Bool
  sleepSeconds : Nat
  scriptSucceeded : Bool
deriving DecidableEq

/-- `_verify_deployment` (lines 552-613): a match on attempt `i` runs `exit 0`
inside the loop (attempts 1..i, i-1 sleeps, no warning); exhausting the 5
attempts prints the warning at line 606 and still reaches the final `echo`,
so the script exits 0 either way. -/
def verify_deployment (responses : Nat → String) (expected : String) :
    VerifyOutcome :=
  match poll_loop responses expected [1, 2, 3, 4, 5] with
  | some i =>
    { attemptsMade := i, matched := true, warned := false,
      sleepSeconds := 2 * (i - 1), scriptSucceeded := true }
  | none =>
    { attemptsMade := 5, matched := false, warned := true,
      sleepSeconds := 2 * 5, scriptSucceeded := true }

/-- Health endpoint used by the concrete polling witness: the body contains
the expected content only from the third attempt on. -/
def demo_responses : Nat → String :=
  fun i => if i ≥ 3 then "Hello World" else "503 Service Unavailable"

theorem detect_step_subset (enabled acc : List String) (line : String)
    (h : acc ⊆ enabled) : detect_step enabled acc line ⊆ enabled := by
  unfold detect_step
  by_cases h1 : strContains line ":installed" = true
  · simp only [h1, if_true]
    by_cases h2 : (pySplit line ':').headD "" ∈ enabled
    · simp only [h2, if_true]
      intro x hx
      rcases List.mem_append.1 hx with hx | hx
      · exact h hx
      · rcases List.mem_singleton.1 hx with rfl
        exact h2
    · simp only [h2, if_false]
      exact h
  · simp only [Bool.not_eq_true] at h1
    simp only [h1, Bool.false_eq_true, if_false]
    exact h

theorem detect_fold_subset (enabled : List String) (lines : List String) :
    ∀ acc : List String, acc ⊆ enabled →
      lines.foldl (detect_step enabled) acc ⊆ enabled := by
  induction lines with
  | nil => intro acc h; simpa using h
  | cons line rest ih =>
    intro acc h
    simpa using ih (detect_step enabled acc line) (detect_step_subset enabled acc line h)

/-- Claim C1: detection only ever appends names that are in the enabled set,
so after `_detect_installed_dependencies` runs on any probe output, the
installed-dependencies list is still contained in the enabled list (the list
being initially contained in it, in particular initially empty). -/
theorem detect_respects_enabled (enabled : List String) (probeSuccess : Bool)
    (output : String) (installed : List String) (h : installed ⊆ enabled) :
    detect_installed_dependencies enabled probeSuccess output installed ⊆ enabled := by
  unfold detect_installed_dependencies
  by_cases hs : probeSuccess = true
  · simp only [hs, if_true]
    exact detect_fold_subset enabled (pySplit output '\n') installed h
  · simp only [Bool.not_eq_true] at hs
    simp only [hs, Bool.false_eq_true, if_false]
    exact h

/-- Witness for C1 at a concrete probe output: of the two marker lines only
the enabled name survives, and the result is contained in the enabled list. -/
theorem detect_respects_enabled_witness :
    detect_installed_dependencies ["apache", "python"] true
      "apache:installed\nphp:installed\nService check completed" [] ⊆
      ["apache", "python"] :=
  detect_respects_enabled ["apache", "python"] true
    "apache:installed\nphp:installed\nService check completed" []
    (List.nil_subset _)

/-- Claim C4: `_get_target_directory` and `_get_file_owner` are pure functions
of the configuration, the installed-dependency list and the OS type (through
any fixed OS-profile lookup `g`): recomputing either at the same inputs, as
the file-deployment and ownership-setting call sites do, yields identical
results. -/
theorem planning_functions_deterministic (g : String → UserInfo) (cfg : Config)
    (installed : List String) (os_type : String) :
    get_target_directory cfg installed = get_target_directory cfg installed ∧
    get_file_owner (g os_type) installed (get_target_directory cfg installed) =
      get_file_owner (g os_type) installed (get_target_directory cfg installed) :=
  ⟨rfl, rfl⟩

/-- Claim C6: the file owner is `default_user:default_user` for every
runtime/container/generic target directory regardless of the installed set,
`web_user:web_group` for any other directory once apache or nginx is
installed, and `default_user:default_user` otherwise. -/
theorem file_owner_resolution (ui : UserInfo) (installed : List String)
    (target_dir : String) :
    (target_dir ∈ ["/opt/nodejs-app", "/opt/python-app", "/opt/docker-app", "/opt/app"] →
      get_file_owner ui installed target_dir = ui.default_user ++ ":" ++ ui.default_user) ∧
    (target_dir ∉ ["/opt/nodejs-app", "/opt/python-app", "/opt/docker-app", "/opt/app"] →
      ("apache" ∈ installed ∨ "nginx" ∈ installed) →
      get_file_owner ui installed target_dir = ui.web_user ++ ":" ++ ui.web_group) ∧
    (target_dir ∉ ["/opt/nodejs-app", "/opt/python-app", "/opt/docker-app", "/opt/app"] →
      "apache" ∉ installed → "nginx" ∉ installed →
      get_file_owner ui installed target_dir = ui.default_user ++ ":" ++ ui.default_user) := by
  refine ⟨?_, ?_, ?_⟩
  · intro hmem
    simp only [get_file_owner, hmem, if_true]
  · intro hmem hweb
    simp only [get_file_owner, hmem, if_false, hweb, if_true]
  · intro hmem ha hn
    have hweb : ¬("apache" ∈ installed ∨ "nginx" ∈ installed) := by
      intro hc; rcases hc with hc | hc
      · exact ha hc
      · exact hn hc
    simp only [get_file_owner, hmem, if_false, hweb]

/-- Witness for C6: a runtime directory is owned by the default account even
with apache installed. -/
theorem file_owner_resolution_witness :
    get_file_owner ⟨"ubuntu", "www-data", "www-data"⟩ ["apache"] "/opt/nodejs-app" =
      "ubuntu" ++ ":" ++ "ubuntu" :=
  (file_owner_resolution ⟨"ubuntu", "www-data", "www-data"⟩ ["apache"]
    "/opt/nodejs-app").1 (by decide)

/-- Claim C9: a declared application type of `python` maps directly through
`APP_TYPE_DIRS`, so the target directory is `/opt/python-app` whatever web
servers are installed or whatever document roots are configured. -/
theorem python_type_directory (cfg : Config) (installed : List String)
    (hty : cfg.applicationType = some "python") (hin : "python" ∈ installed) :
    get_target_directory cfg installed = "/opt/python-app" := by
  unfold get_target_directory
  rw [hty]
  rfl

/-- Witness for C9: declared python type with python and apache installed and
an apache document root configured still resolves to the python directory. -/
theorem python_type_directory_witness :
    get_target_directory ⟨some "python", some "/var/www/html", none, false, false⟩
      ["python", "apache"] = "/opt/python-app" :=
  python_type_directory ⟨some "python", some "/var/www/html", none, false, false⟩
    ["python", "apache"] rfl (by decide)

/-- Claim C5: with no declared application type, the type is inferred from the
installed set with fixed priority nodejs, then python, then docker, then the
generic web fallback; in particular nodejs plus apache resolves to
`/opt/nodejs-app`. -/
theorem inferred_app_type_priority (cfg : Config) (installed : List String)
    (hty : pyTruthy cfg.applicationType = false) :
    ("nodejs" ∈ installed →
      get_target_directory cfg installed = "/opt/nodejs-app") ∧
    ("nodejs" ∉ installed → "python" ∈ installed →
      get_target_directory cfg installed = "/opt/python-app") ∧
    ("nodejs" ∉ installed → "python" ∉ installed → "docker" ∈ installed →
      get_target_directory cfg installed = "/opt/docker-app") ∧
    ("nodejs" ∉ installed → "python" ∉ installed → "docker" ∉ installed →
      get_target_directory cfg installed =
        (if "apache" ∈ installed then cfg.apacheDocRoot.getD "/var/www/html"
         else if "nginx" ∈ installed then cfg.nginxDocRoot.getD "/var/www/html"
         else "/var/www/html")) := by
  refine ⟨?_, ?_, ?_, ?_⟩
  · intro h1
    simp only [get_target_directory, hty, Bool.false_eq_true, if_false,
      infer_app_type, h1, if_true]
    rfl
  · intro h1 h2
    simp only [get_target_directory, hty, Bool.false_eq_true, if_false,
      infer_app_type, h1, h2, if_true]
    rfl
  · intro h1 h2 h3
    simp only [get_target_directory, hty, Bool.false_eq_true, if_false,
      infer_app_type, h1, h2, h3, if_true, if_false]
    rfl
  · intro h1 h2 h3
    simp only [get_target_directory, hty, Bool.false_eq_true, if_false,
      infer_app_type, h1, h2, h3, if_true, if_false]
    rfl

/-- Witness for C5: both nodejs and apache installed, no declared type, and
the runtime wins over the web server. -/
theorem inferred_app_type_priority_witness :
    get_target_directory ⟨none, some "/var/www/html", none, false, false⟩
      ["nodejs", "apache"] = "/opt/nodejs-app" :=
  (inferred_app_type_priority ⟨none, some "/var/www/html", none, false, false⟩
    ["nodejs", "apache"] rfl).1 (by decide)

theorem configure_loop_names (s : Bool) (cs : List (String × ConfigureOutcome)) :
    (configure_loop s cs).1 = cs.map Prod.fst := by
  induction cs generalizing s with
  | nil => rfl
  | cons c rest ih =>
    simp only [configure_loop, List.map_cons, List.cons.injEq, true_and]
    exact ih (configure_step s c.2)

theorem configure_step_false (o : ConfigureOutcome) : configure_step false o = false := by
  cases o with
  | returns b => cases b <;> rfl
  | raises m => rfl

theorem configure_loop_false (cs : List (String × ConfigureOutcome)) :
    (configure_loop false cs).2 = false := by
  induction cs with
  | nil => rfl
  | cons c rest ih =>
    simp only [configure_loop, configure_step_false]
    exact ih

/-- Claim C7: `_configure_application` invokes every configurator of the
derived list, in list order, whatever the individual outcomes (a raised
exception is caught and recorded rather than propagated); in particular with
three configurators of which the second raises, all three run in order and
the aggregate result is false. -/
theorem configurator_dispatch_order (cs : List (String × ConfigureOutcome))
    (c1 c3 : String × ConfigureOutcome) (n msg : String) :
    (configure_application cs).1 = cs.map Prod.fst ∧
    (configure_application [c1, (n, ConfigureOutcome.raises msg), c3]).1 =
      [c1.1, n, c3.1] ∧
    (configure_application [c1, (n, ConfigureOutcome.raises msg), c3]).2 = false := by
  refine ⟨?_, ?_, ?_⟩
  · unfold configure_application
    by_cases he : cs.isEmpty = true
    · rw [List.isEmpty_iff] at he
      subst he
      rfl
    · simp only [he, Bool.false_eq_true, if_false]
      exact configure_loop_names true cs
  · simp only [configure_application, List.isEmpty_cons, Bool.false_eq_true,
      if_false]
    simpa using configure_loop_names true [c1, (n, ConfigureOutcome.raises msg), c3]
  · simp only [configure_application, List.isEmpty_cons, Bool.false_eq_true,
      if_false, configure_loop]
    have : configure_step (configure_step true c1.2) (ConfigureOutcome.raises msg) = false := rfl
    rw [this]
    exact configure_loop_false [c3]

theorem poll_loop_mem (responses : Nat → String) (expected : String)
    (l : List Nat) (i : Nat) (h : poll_loop responses expected l = some i) :
    i ∈ l := by
  induction l with
  | nil => simp [poll_loop] at h
  | cons j rest ih =>
    simp only [poll_loop] at h
    by_cases hc : strContains (responses j) expected = true
    · rw [if_pos hc] at h
      cases h
      exact List.mem_cons_self _ _
    · simp only [Bool.not_eq_true] at hc
      rw [hc] at h
      simp only [Bool.false_eq_true, if_false] at h
      exact List.mem_cons_of_mem j (ih h)

/-- Claim C8: verification performs at most 5 polling attempts with a
2-second sleep after each failed one; a first match on attempt 3 means exactly
3 attempts (and 2 sleeps) are performed; exhausting all 5 attempts produces
the warning while the script still succeeds, and the overall run result of
`deploy_application` does not depend on the verification outcome. -/
theorem verification_polling_behavior (responses : Nat → String) (expected : String) :
    (verify_deployment responses expected).attemptsMade ≤ 5 ∧
    (strContains (responses 1) expected = false →
      strContains (responses 2) expected = false →
      strContains (responses 3) expected = true →
      (verify_deployment responses expected).attemptsMade = 3 ∧
      (verify_deployment responses expected).matched = true ∧
      (verify_deployment responses expected).sleepSeconds = 2 * 2) ∧
    ((∀ i, 1 ≤ i → i ≤ 5 → strContains (responses i) expected = false) →
      (verify_deployment responses expected).matched = false ∧
      (verify_deployment responses expected).warned = true ∧
      (verify_deployment responses expected).scriptSucceeded = true) ∧
    (∀ (cfg : Config) (env : RunEnv) (fl : RunFlags) (b1 b2 : Bool),
      (deploy_application cfg { env with verifyOk := b1 } fl).result =
      (deploy_application cfg { env with verifyOk := b2 } fl).result) := by
  refine ⟨?_, ?_, ?_, ?_⟩
  · unfold verify_deployment
    cases hp : poll_loop responses expected [1, 2, 3, 4, 5] with
    | none => simp
    | some i =>
      have hi := poll_loop_mem responses expected _ i hp
      have : i ≤ 5 := by
        simp only [List.mem_cons, List.not_mem_nil, or_false] at hi
        omega
      simpa using this
  · intro h1 h2 h3
    have hp : poll_loop responses expected [1, 2, 3, 4, 5] = some 3 := by
      simp [poll_loop, h1, h2, h3]
    simp [verify_deployment, hp]
  · intro hall
    have hp : poll_loop responses expected [1, 2, 3, 4, 5] = none := by
      simp [poll_loop, hall 1 (by omega) (by omega), hall 2 (by omega) (by omega),
        hall 3 (by omega) (by omega), hall 4 (by omega) (by omega),
        hall 5 (by omega) (by omega)]
    simp [verify_deployment, hp]
  · intro cfg env fl b1 b2
    unfold deploy_application deploy_tail deploy_application_files
    cases cfg.dockerEnabled <;> cases cfg.useDocker <;> cases env.dockerDeployOk <;>
      cases env.copyOk <;> cases env.deployScriptOk <;> rfl

/-- Witness for C8: on the demo endpoint that first matches on attempt 3,
verification stops after exactly 3 attempts with a match. -/
theorem verification_polling_behavior_witness :
    (verify_deployment demo_responses "Hello").attemptsMade = 3 ∧
    (verify_deployment demo_responses "Hello").matched = true ∧
    (verify_deployment demo_responses "Hello").sleepSeconds = 2 * 2 :=
  (verification_polling_behavior demo_responses "Hello").2.1
    (by decide) (by decide) (by decide)

/-- Counterexample to C2 as stated: in this concrete traditional-mode run the
configurator aggregate reports failure, the subsequent steps (app-specific
config, restart, tuning) still execute, yet `deploy_application` returns
true, not false. -/
theorem configurator_failure_not_fatal_cex :
    RunEnv.configureOk ⟨true, true, true, false, true, true, true⟩ = false ∧
    Step.appSpecificConfig ∈
      (deploy_application ⟨none, none, none, false, false⟩
        ⟨true, true, true, false, true, true, true⟩ ⟨false, false, false⟩).steps ∧
    Step.restartServices ∈
      (deploy_application ⟨none, none, none, false, false⟩
        ⟨true, true, true, false, true, true, true⟩ ⟨false, false, false⟩).steps ∧
    (deploy_application ⟨none, none, none, false, false⟩
        ⟨true, true, true, false, true, true, true⟩ ⟨false, false, false⟩).result ≠ false := by
  decide

/-- Claim C2 (amended): when `_configure_application`,
`_setup_app_specific_config` or `restart_services` reports failure in a
traditional-mode run whose file deployment succeeded, the remaining steps
still execute and the failure is recorded only as a warning;
`deploy_application` nevertheless returns true — the run result never
degrades to false for these failures. -/
theorem degraded_failures_continue (cfg : Config) (env : RunEnv) (fl : RunFlags)
    (hnd : (cfg.dockerEnabled && cfg.useDocker) = false)
    (hok : deploy_application_files env.copyOk env.deployScriptOk = true) :
    (deploy_application cfg env fl).result = true ∧
    Step.configureApp ∈ (deploy_application cfg env fl).steps ∧
    Step.appSpecificConfig ∈ (deploy_application cfg env fl).steps ∧
    Step.restartServices ∈ (deploy_application cfg env fl).steps ∧
    Step.optimizeStep ∈ (deploy_application cfg env fl).steps ∧
    (env.configureOk = false →
      "Application configuration had some issues" ∈ (deploy_application cfg env fl).warnings) ∧
    (env.appSpecificOk = false →
      "Some application-specific configurations failed" ∈ (deploy_application cfg env fl).warnings) ∧
    (env.restartOk = false →
      "Some services failed to restart" ∈ (deploy_application cfg env fl).warnings) := by
  have hout : deploy_application cfg env fl =
      deploy_tail
        [Step.deployFiles, Step.configureApp, Step.appSpecificConfig,
         Step.restartServices, Step.verifyServicesCheck]
        ((if env.configureOk then [] else ["Application configuration had some issues"]) ++
         (if env.appSpecificOk then [] else ["Some application-specific configurations failed"]) ++
         (if env.restartOk then [] else ["Some services failed to restart"])) env fl := by
    unfold deploy_application
    rw [hnd, hok]
    rfl
  rw [hout]
  unfold deploy_tail
  refine ⟨rfl, ?_, ?_, ?_, ?_, ?_, ?_, ?_⟩
  · simp
  · simp
  · simp
  · simp
  · intro hc; simp [hc]
  · intro hc; simp [hc]
  · intro hc; simp [hc]

/-- Witness for C2 (amended) at a concrete run with all three degraded
failures at once: result is still true and all three warnings are recorded. -/
theorem degraded_failures_continue_witness :
    (deploy_application ⟨none, none, none, false, false⟩
      ⟨true, true, true, false, false, false, true⟩ ⟨true, true, true⟩).result = true :=
  (degraded_failures_continue ⟨none, none, none, false, false⟩
    ⟨true, true, true, false, false, false, true⟩ ⟨true, true, true⟩ rfl rfl).1

/-- Claim C3: a file-deployment failure (in particular a failed
`copy_file_to_instance` upload) makes `deploy_application` return false at
once with no configurator, restart or cleanup step performed, and `main`
exits with status 1. -/
theorem file_deployment_failure_is_fatal (cfg : Config) (env : RunEnv) (fl : RunFlags)
    (hnd : (cfg.dockerEnabled && cfg.useDocker) = false)
    (hfail : deploy_application_files env.copyOk env.deployScriptOk = false) :
    (∀ b : Bool, deploy_application_files false b = false) ∧
    (deploy_application cfg env fl).result = false ∧
    (deploy_application cfg env fl).steps = [Step.deployFiles] ∧
    Step.configureApp ∉ (deploy_application cfg env fl).steps ∧
    Step.restartServices ∉ (deploy_application cfg env fl).steps ∧
    Step.cleanupStep ∉ (deploy_application cfg env fl).steps ∧
    main_exit_code (deploy_application cfg env fl).result = 1 := by
  have hout : deploy_application cfg env fl =
      { result := false, steps := [Step.deployFiles], warnings := [] } := by
    unfold deploy_application
    rw [hnd, hfail]
    rfl
  rw [hout]
  refine ⟨fun b => rfl, rfl, rfl, ?_, ?_, ?_, rfl⟩ <;> decide

/-- Witness for C3: a concrete run in which the package upload fails. -/
theorem file_deployment_failure_is_fatal_witness :
    (deploy_application ⟨none, none, none, false, false⟩
      ⟨false, true, true, true, true, true, true⟩ ⟨true, true, true⟩).result = false :=
  (file_deployment_failure_is_fatal ⟨none, none, none, false, false⟩
    ⟨false, true, true, true, true, true, true⟩ ⟨true, true, true⟩ rfl rfl).2.1

/-- Claim C10: in docker deployment mode (docker enabled and selected), a
failed container deployment makes `deploy_application` return false at once:
env-var injection, verification, cleanup and performance tuning are all
skipped and `main` exits with status 1. -/
theorem docker_failure_is_fatal (cfg : Config) (env : RunEnv) (fl : RunFlags)
    (hd : (cfg.dockerEnabled && cfg.useDocker) = true)
    (hfail : env.dockerDeployOk = false) :
    (deploy_application cfg env fl).result = false ∧
    (deploy_application cfg env fl).steps = [Step.dockerDeploy] ∧
    Step.setEnvVars ∉ (deploy_application cfg env fl).steps ∧
    Step.verifyDeploy ∉ (deploy_application cfg env fl).steps ∧
    Step.cleanupStep ∉ (deploy_application cfg env fl).steps ∧
    Step.optimizeStep ∉ (deploy_application cfg env fl).steps ∧
    main_exit_code (deploy_application cfg env fl).result = 1 := by
  have hout : deploy_application cfg env fl =
      { result := false, steps := [Step.dockerDeploy], warnings := [] } := by
    unfold deploy_application
    rw [hd, hfail]
    rfl
  rw [hout]
  refine ⟨rfl, rfl, ?_, ?_, ?_, ?_, rfl⟩ <;> decide

/-- Witness for C10: a concrete docker-mode run whose container deployment
fails. -/
theorem docker_failure_is_fatal_witness :
    (deploy_application ⟨none, none, none, true, true⟩
      ⟨true, true, false, true, true, true, true⟩ ⟨true, true, true⟩).result = false :=
  (docker_failure_is_fatal ⟨none, none, none, true, true⟩
    ⟨true, true, false, true, true, true, true⟩ ⟨true, true, true⟩ rfl rfl).1
